import Mathlib

/-!
Shallow embedding of the two Flask demo applications of the `tf-rosa`
repository (`src/demo/app/app.py`, the "base" variant, and
`src/rosa-supply-chain-complete/demo/app/app.py`, the "extended" variant).

Each application registers three routes (`/health`, `/`, `/security`) whose
handlers build a JSON document with `jsonify` and return it (Flask answers
HTTP 200).  The only inputs are the process environment variables
`APP_VERSION` and `IMAGE_SIGNED`, read per request via `os.getenv` with
defaults `"1.0.0"` and `"true"`.
-/

/-- JSON values, as produced by Flask's `jsonify` on the Python literals of
the handlers (strings, booleans, integers, arrays, objects). -/
inductive Json where
  | str : String → Json
  | bool : Bool → Json
  | num : Int → Json
  | arr : List Json → Json
  | obj : List (String × Json) → Json

/-- The process environment: an association of variable names to values.
A name absent from the list is an unset variable. -/
abbrev Env := List (String × String)

/-- `os.getenv(key, dflt)`: the environment value for `key`, or `dflt`
when the variable is unset. -/
def getenv (env : Env) (key dflt : String) : String :=
  (List.lookup key env).getD dflt

/-- Handler `health` of the base variant (`src/demo/app/app.py`, lines 6-13). -/
def health_base (env : Env) : Json :=
  .obj [("status", .str "healthy"),
        ("version", .str (getenv env "APP_VERSION" "1.0.0")),
        ("signed", .str (getenv env "IMAGE_SIGNED" "true")),
        ("sbom_available", .bool true)]

/-- Handler `home` of the base variant (`src/demo/app/app.py`, lines 15-25). -/
def home_base (_env : Env) : Json :=
  .obj [("message", .str "Secure Supply Chain Demo - ROSA"),
        ("security_features",
          .arr [.str "✅ Image Signing with Cosign",
                .str "✅ SBOM Generation with Syft",
                .str "✅ Policy Enforcement with ACS",
                .str "✅ Zero Trust Network Policies"])]

/-- Handler `security_info` of the base variant
(`src/demo/app/app.py`, lines 27-35). -/
def security_info_base (_env : Env) : Json :=
  .obj [("image_signed", .bool true),
        ("signature_verified", .bool true),
        ("sbom_format", .str "SPDX"),
        ("compliance", .arr [.str "CIS", .str "PCI-DSS", .str "NIST"]),
        ("zero_trust", .bool true)]

/-- Handler `health` of the extended variant
(`src/rosa-supply-chain-complete/demo/app/app.py`, lines 6-14). -/
def health_ext (env : Env) : Json :=
  .obj [("status", .str "healthy"),
        ("version", .str (getenv env "APP_VERSION" "1.0.0")),
        ("signed", .str (getenv env "IMAGE_SIGNED" "true")),
        ("sbom_available", .bool true),
        ("security_verified", .bool true)]

/-- Handler `home` of the extended variant
(`src/rosa-supply-chain-complete/demo/app/app.py`, lines 16-36). -/
def home_ext (_env : Env) : Json :=
  .obj [("message", .str "Secure Supply Chain Demo - ROSA"),
        ("features",
          .obj [("image_signing", .str "Cosign"),
                ("sbom", .str "Syft (SPDX/CycloneDX)"),
                ("vulnerability_scanning", .str "Trivy + Clair"),
                ("policy_enforcement", .str "Red Hat ACS"),
                ("sbom_analysis", .str "Trusted Profile Analyzer"),
                ("ci_cd", .str "Tekton Pipelines"),
                ("zero_trust", .str "Network Policies")]),
        ("integrations",
          .arr [.str "Red Hat Quay",
                .str "Red Hat ACS",
                .str "Trusted Profile Analyzer",
                .str "OpenShift Pipelines",
                .str "MLflow (AI/ML)"])]

/-- Handler `security_info` of the extended variant
(`src/rosa-supply-chain-complete/demo/app/app.py`, lines 38-61). -/
def security_info_ext (_env : Env) : Json :=
  .obj [("image_signature",
          .obj [("signed", .bool true),
                ("algorithm", .str "cosign"),
                ("verified", .bool true)]),
        ("sbom",
          .obj [("format", .str "SPDX 2.3"),
                ("attached", .bool true),
                ("signed", .bool true)]),
        ("vulnerabilities",
          .obj [("scanned", .bool true),
                ("critical", .num 0),
                ("high", .num 0),
                ("policy_compliant", .bool true)]),
        ("compliance",
          .obj [("standards", .arr [.str "CIS", .str "PCI-DSS", .str "NIST SP 800-53"]),
                ("status", .str "COMPLIANT")])]

/-- The three registered routes of either application. -/
inductive Route where
  | health : Route
  | home : Route
  | security : Route
deriving DecidableEq

/-- Which of the two near-duplicate applications is serving. -/
inductive Variant where
  | base : Variant
  | ext : Variant
deriving DecidableEq

/-- Route dispatch: the JSON body each variant's handler builds for a route. -/
def dispatch : Variant → Route → Env → Json
  | .base, .health, env => health_base env
  | .base, .home, env => home_base env
  | .base, .security, env => security_info_base env
  | .ext, .health, env => health_ext env
  | .ext, .home, env => home_ext env
  | .ext, .security, env => security_info_ext env

/-- Handling a request: every handler unconditionally returns a body, which
Flask serves with status 200.  The `Except` error branch models a
request-level failure; no handler ever takes it. -/
def handle (v : Variant) (r : Route) (env : Env) : Except String (Nat × Json) :=
  .ok (200, dispatch v r env)

/-- Handling a request against the process state (the environment): the
handlers read the environment and mutate nothing, so the state comes back
unchanged alongside the response. -/
def handleStateful (v : Variant) (r : Route) (s : Env) :
    Except String (Nat × Json) × Env :=
  (handle v r s, s)

/-- Field lookup in a JSON object (`none` on non-objects or missing keys). -/
def Json.getField : Json → String → Option Json
  | .obj fs, k => List.lookup k fs
  | _, _ => none

/-- Removing one field from a JSON object (identity on non-objects). -/
def Json.dropField : Json → String → Json
  | .obj fs, k => .obj (fs.filter (fun p => p.1 != k))
  | j, _ => j

/-- Whether a JSON value is a string. -/
def Json.isStr : Json → Bool
  | .str _ => true
  | _ => false

/-- Escaping of quote and backslash characters inside a JSON string. -/
def jsonEscape (s : String) : String :=
  s.foldl (fun acc c =>
    if c = '"' then acc ++ "\\\""
    else if c = '\\' then acc ++ "\\\\"
    else acc.push c) ""

mutual

/-- Serialization of a JSON value to the bytes sent on the wire. -/
def Json.render : Json → String
  | .str s => "\"" ++ jsonEscape s ++ "\""
  | .bool b => if b then "true" else "false"
  | .num n => toString n
  | .arr xs => "[" ++ Json.renderElems xs ++ "]"
  | .obj fs => "\x7b" ++ Json.renderFields fs ++ "\x7d"

/-- Serialization of the comma-separated elements of a JSON array. -/
def Json.renderElems : List Json → String
  | [] => ""
  | [x] => x.render
  | x :: y :: xs => x.render ++ "," ++ Json.renderElems (y :: xs)

/-- Serialization of the comma-separated fields of a JSON object. -/
def Json.renderFields : List (String × Json) → String
  | [] => ""
  | [(k, v)] => "\"" ++ jsonEscape k ++ "\":" ++ v.render
  | (k, v) :: f :: fs =>
      "\"" ++ jsonEscape k ++ "\":" ++ v.render ++ "," ++ Json.renderFields (f :: fs)

end

/-- The bytes a request's result puts on the wire: status code and rendered
body for a success, the error text otherwise. -/
def renderResult : Except String (Nat × Json) → String
  | .ok (code, body) => toString code ++ " " ++ body.render
  | .error e => e

/-- C1: for every request to GET /health, in both variants the handler
returns HTTP 200 with `status == "healthy"` and `sbom_available == true`; in
the extended variant the response additionally contains
`security_verified == true`. -/
theorem health_status_and_sbom (env : Env) :
    handle .base .health env = .ok (200, health_base env) ∧
    handle .ext .health env = .ok (200, health_ext env) ∧
    (health_base env).getField "status" = some (.str "healthy") ∧
    (health_base env).getField "sbom_available" = some (.bool true) ∧
    (health_ext env).getField "status" = some (.str "healthy") ∧
    (health_ext env).getField "sbom_available" = some (.bool true) ∧
    (health_ext env).getField "security_verified" = some (.bool true) :=
  ⟨rfl, rfl, rfl, rfl, rfl, rfl, rfl⟩

/-- C2: for every request to GET /health, when `APP_VERSION` is set to
`"2.3.1"` the `version` field is `"2.3.1"`, and when `APP_VERSION` is unset
the `version` field is `"1.0.0"`, in both variants. -/
theorem health_version_from_env (env : Env) :
    (List.lookup "APP_VERSION" env = some "2.3.1" →
      (health_base env).getField "version" = some (.str "2.3.1") ∧
      (health_ext env).getField "version" = some (.str "2.3.1")) ∧
    (List.lookup "APP_VERSION" env = none →
      (health_base env).getField "version" = some (.str "1.0.0") ∧
      (health_ext env).getField "version" = some (.str "1.0.0")) := by
  constructor <;> intro h <;>
    exact ⟨by simp only [health_base, Json.getField, getenv, h]; rfl,
           by simp only [health_ext, Json.getField, getenv, h]; rfl⟩

/-- Witness for C2: concrete environments with `APP_VERSION` set and unset. -/
theorem health_version_from_env_witness :
    (health_base [("APP_VERSION", "2.3.1")]).getField "version"
      = some (.str "2.3.1") ∧
    (health_base []).getField "version" = some (.str "1.0.0") :=
  ⟨((health_version_from_env [("APP_VERSION", "2.3.1")]).1 rfl).1,
   ((health_version_from_env []).2 rfl).1⟩

/-- C3: for every request to GET /health, when `IMAGE_SIGNED` is set to
`"false"` the `signed` field is the JSON string `"false"` (a string, not a
boolean), and when `IMAGE_SIGNED` is unset it is the string `"true"`, in
both variants. -/
theorem health_signed_from_env (env : Env) :
    (List.lookup "IMAGE_SIGNED" env = some "false" →
      (health_base env).getField "signed" = some (.str "false") ∧
      (health_ext env).getField "signed" = some (.str "false")) ∧
    (List.lookup "IMAGE_SIGNED" env = none →
      (health_base env).getField "signed" = some (.str "true") ∧
      (health_ext env).getField "signed" = some (.str "true")) := by
  constructor <;> intro h <;>
    exact ⟨by simp only [health_base, Json.getField, getenv, h]; rfl,
           by simp only [health_ext, Json.getField, getenv, h]; rfl⟩

/-- Witness for C3: concrete environments with `IMAGE_SIGNED` set to
`"false"` and unset. -/
theorem health_signed_from_env_witness :
    (health_base [("IMAGE_SIGNED", "false")]).getField "signed"
      = some (.str "false") ∧
    (health_base []).getField "signed" = some (.str "true") :=
  ⟨((health_signed_from_env [("IMAGE_SIGNED", "false")]).1 rfl).1,
   ((health_signed_from_env []).2 rfl).1⟩
/-- C4: for every request to GET /security, both variants return HTTP 200 and
the `compliance` list (base variant) respectively the `compliance.standards`
list (extended variant) contains `"CIS"`, `"PCI-DSS"`, and a NIST standard
(`"NIST"` respectively `"NIST SP 800-53"`). -/
theorem security_compliance_standards (env : Env) :
    handle .base .security env = .ok (200, security_info_base env) ∧
    handle .ext .security env = .ok (200, security_info_ext env) ∧
    (∃ xs, (security_info_base env).getField "compliance" = some (.arr xs) ∧
      Json.str "CIS" ∈ xs ∧ Json.str "PCI-DSS" ∈ xs ∧ Json.str "NIST" ∈ xs) ∧
    (∃ c ys, (security_info_ext env).getField "compliance" = some c ∧
      c.getField "standards" = some (.arr ys) ∧
      Json.str "CIS" ∈ ys ∧ Json.str "PCI-DSS" ∈ ys ∧
      Json.str "NIST SP 800-53" ∈ ys) :=
  ⟨rfl, rfl,
   ⟨[.str "CIS", .str "PCI-DSS", .str "NIST"], rfl,
    .head _, .tail _ (.head _), .tail _ (.tail _ (.head _))⟩,
   ⟨.obj [("standards", .arr [.str "CIS", .str "PCI-DSS", .str "NIST SP 800-53"]),
          ("status", .str "COMPLIANT")],
    [.str "CIS", .str "PCI-DSS", .str "NIST SP 800-53"], rfl, rfl,
    .head _, .tail _ (.head _), .tail _ (.tail _ (.head _))⟩⟩

/-- C5: for every route and every fixed process environment, two identical
requests handled by the same variant produce byte-identical responses: the
process state is returned unchanged by the first request, and the second
request's result — at the JSON level and as rendered wire bytes — equals
the first's. -/
theorem handlers_stateless_idempotent (v : Variant) (r : Route) (s : Env) :
    (handleStateful v r s).2 = s ∧
    (handleStateful v r (handleStateful v r s).2).1 = (handleStateful v r s).1 ∧
    renderResult (handleStateful v r (handleStateful v r s).2).1
      = renderResult (handleStateful v r s).1 :=
  ⟨rfl, rfl, rfl⟩

/-- C6: no request to any of the three routes can produce an error result:
for every variant, route and environment, the handler returns `.ok` with
HTTP status 200 and the body the dispatched handler builds, so the error
branch is never taken. -/
theorem handle_never_errors (v : Variant) (r : Route) (env : Env) :
    handle v r env = .ok (200, dispatch v r env) :=
  rfl

/-- C7: for every request to GET /, both variants return HTTP 200 with a
`message` field equal to `"Secure Supply Chain Demo - ROSA"`; the base
variant carries a flat list of feature strings under `security_features`,
the extended variant a nested `features` object and an `integrations`
list. -/
theorem home_message_and_shape (env : Env) :
    handle .base .home env = .ok (200, home_base env) ∧
    handle .ext .home env = .ok (200, home_ext env) ∧
    (home_base env).getField "message"
      = some (.str "Secure Supply Chain Demo - ROSA") ∧
    (home_ext env).getField "message"
      = some (.str "Secure Supply Chain Demo - ROSA") ∧
    (∃ xs, (home_base env).getField "security_features" = some (.arr xs) ∧
      xs.all Json.isStr = true) ∧
    (∃ fs, (home_ext env).getField "features" = some (.obj fs)) ∧
    (∃ ys, (home_ext env).getField "integrations" = some (.arr ys)) :=
  ⟨rfl, rfl, rfl, rfl,
   ⟨[.str "✅ Image Signing with Cosign",
     .str "✅ SBOM Generation with Syft",
     .str "✅ Policy Enforcement with ACS",
     .str "✅ Zero Trust Network Policies"], rfl, rfl⟩,
   ⟨[("image_signing", .str "Cosign"),
     ("sbom", .str "Syft (SPDX/CycloneDX)"),
     ("vulnerability_scanning", .str "Trivy + Clair"),
     ("policy_enforcement", .str "Red Hat ACS"),
     ("sbom_analysis", .str "Trusted Profile Analyzer"),
     ("ci_cd", .str "Tekton Pipelines"),
     ("zero_trust", .str "Network Policies")], rfl⟩,
   ⟨[.str "Red Hat Quay",
     .str "Red Hat ACS",
     .str "Trusted Profile Analyzer",
     .str "OpenShift Pipelines",
     .str "MLflow (AI/ML)"], rfl⟩⟩
/-- The string carried by a JSON string value (`none` on other values). -/
def Json.asStr : Json → Option String
  | .str s => some s
  | _ => none

/-- C8: for every string value of `IMAGE_SIGNED` in the environment, both
variants return it verbatim in the `signed` field of the /health response:
the value is passed through with no validation or normalization. -/
theorem health_signed_passthrough (env : Env) (v : String)
    (h : List.lookup "IMAGE_SIGNED" env = some v) :
    (health_base env).getField "signed" = some (.str v) ∧
    (health_ext env).getField "signed" = some (.str v) := by
  exact ⟨by simp only [health_base, Json.getField, getenv, h]; rfl,
         by simp only [health_ext, Json.getField, getenv, h]; rfl⟩

/-- Witness for C8: a value that is neither `"true"` nor `"false"` is
returned verbatim. -/
theorem health_signed_passthrough_witness :
    (health_base [("IMAGE_SIGNED", "not-a-boolean")]).getField "signed"
      = some (.str "not-a-boolean") :=
  (health_signed_passthrough [("IMAGE_SIGNED", "not-a-boolean")]
    "not-a-boolean" rfl).1

/-- C9: the responses of GET / and GET /security are constants independent
of the process environment in both variants, while /health does depend on
it: two environments differing in `APP_VERSION` give different /health
bodies. -/
theorem home_security_env_independent (e1 e2 : Env) :
    home_base e1 = home_base e2 ∧
    home_ext e1 = home_ext e2 ∧
    security_info_base e1 = security_info_base e2 ∧
    security_info_ext e1 = security_info_ext e2 ∧
    health_base [("APP_VERSION", "2.3.1")] ≠ health_base [] ∧
    health_ext [("APP_VERSION", "2.3.1")] ≠ health_ext [] :=
  ⟨rfl, rfl, rfl, rfl,
   fun h => absurd
     (congrArg (fun j => ((Json.getField j "version").bind Json.asStr)) h)
     (by decide),
   fun h => absurd
     (congrArg (fun j => ((Json.getField j "version").bind Json.asStr)) h)
     (by decide)⟩

/-- Witness for C9: the constancy and the /health dependence at two concrete
environments. -/
theorem home_security_env_independent_witness :
    home_base [("APP_VERSION", "2.3.1")] = home_base [] ∧
    home_ext [("APP_VERSION", "2.3.1")] = home_ext [] ∧
    security_info_base [("APP_VERSION", "2.3.1")] = security_info_base [] ∧
    security_info_ext [("APP_VERSION", "2.3.1")] = security_info_ext [] ∧
    health_base [("APP_VERSION", "2.3.1")] ≠ health_base [] ∧
    health_ext [("APP_VERSION", "2.3.1")] ≠ health_ext [] :=
  home_security_env_independent [("APP_VERSION", "2.3.1")] []

/-- C10: for every environment, the /health body of the base variant equals
the /health body of the extended variant with the `security_verified` field
removed: the two variants agree on the shared fields `status`, `version`,
`signed` and `sbom_available`. -/
theorem health_ext_refines_base (env : Env) :
    (health_ext env).dropField "security_verified" = health_base env :=
  rfl
